import Mathlib

/-!
Verification of `songbird-infrastructure/scripts/create_golden_dataset.py`.

The script is a linear ETL pipeline: it scans a DynamoDB chat-history table
(`scan_chat_history`), filters the scanned records for quality and uniqueness
(`filter_golden`), and uploads the result as a named Phoenix dataset, with a
GraphQL verification fallback when the upload call raises (`main`).

Embedding conventions:
  * Python strings stay `String`; the Python primitives `str.strip()`,
    `str.lower()`, `len`, and substring `in` are modelled over `String.data`
    (`pyStrip`, `pyLower`, `pyLen`, `pyContains`) so that they compute.
  * A DynamoDB item is a record of optional fields (`Item`); Python truthiness
    of an optional string field is `truthy`.
  * The paginated table scan is modelled by the list of pages the store
    returns; the external upload call and the GraphQL verification response
    are modelled by the `UploadOutcome` parameter of `main`.
  * Python's stable `list.sort(key=..., reverse=True)` is modelled by
    `List.insertionSort` with the flipped timestamp order, which is stable
    in the same sense.
  * `sys.exit(1)` / normal return are modelled by the `exitCode` field of
    `RunResult`; the example count printed in the success message is the
    `reportedCount` field.
-/

namespace GoldenDataset

open scoped List

/-- Python `str.strip()`: remove whitespace from both ends of the string. -/
def pyStrip (s : String) : String :=
  ⟨((s.data.dropWhile Char.isWhitespace).reverse.dropWhile Char.isWhitespace).reverse⟩

/-- Python `str.lower()` (ASCII model: lower-case each character). -/
def pyLower (s : String) : String :=
  ⟨s.data.map Char.toLower⟩

/-- Python `len` on a string: the number of code points. -/
def pyLen (s : String) : Nat :=
  s.data.length

/-- Python `sub in big` on strings: substring containment. -/
def pyContains (big sub : String) : Bool :=
  decide (sub.data <:+: big.data)

/-- Python truthiness of an optional string: `None` and `""` are falsy. -/
def truthy : Option String → Bool
  | none => false
  | some s => s != ""

/-- Python `x if x is not None else ""` as performed by `item.get(k, "")`. -/
def getStr : Option String → String
  | none => ""
  | some s => s

/-- One item of the DynamoDB table: a flat mapping with optional fields,
read by `item.get(...)` in `scan_chat_history`. -/
structure Item where
  sql : Option String := none
  question : Option String := none
  insights : Option String := none
  timestamp : Option Int := none
  user_email : Option String := none
  session_id : Option String := none
deriving DecidableEq

/-- The dictionary appended to `queries` by `scan_chat_history` for an
accepted item. -/
structure ChatRecord where
  question : String
  sql : String
  insights : String
  timestamp : Int
  user_email : String
  session_id : String
deriving DecidableEq

/-- The record `scan_chat_history` builds from an accepted item:
`question`/`sql`/`insights` are the (truthy) values, the remaining fields use
`item.get("timestamp", 0)`, `item.get("user_email", "")`,
`item.get("session_id", "")`. -/
def itemToRecord (it : Item) : ChatRecord :=
  { question := getStr it.question
    sql := getStr it.sql
    insights := getStr it.insights
    timestamp := it.timestamp.getD 0
    user_email := getStr it.user_email
    session_id := getStr it.session_id }

/-- The acceptance test of `scan_chat_history`:
`if sql and question and insights`. -/
def itemQualifies (it : Item) : Bool :=
  truthy it.sql && truthy it.question && truthy it.insights

/-- Inner loop of `scan_chat_history`: processes the items of one page,
appending each accepted item's record to `queries`. -/
def scanItems : List Item → List ChatRecord → List ChatRecord
  | [], queries => queries
  | it :: rest, queries =>
    if truthy it.sql && truthy it.question && truthy it.insights then
      scanItems rest (queries ++ [itemToRecord it])
    else
      scanItems rest queries

/-- Pagination loop of `scan_chat_history`: one iteration of the `while True`
loop per page returned by the store, until no continuation key is returned. -/
def scanPages : List (List Item) → List ChatRecord → List ChatRecord
  | [], queries => queries
  | page :: rest, queries => scanPages rest (scanItems page queries)

/-- `scan_chat_history(table_name)`: full paginated scan of the table, the
table's content being the list of pages the store returns. -/
def scan_chat_history (pages : List (List Item)) : List ChatRecord :=
  scanPages pages []

/-- The fixed dataset name `DATASET_NAME`. -/
def DATASET_NAME : String :=
  "analytics-golden-queries"

/-- The fixed target example count `TARGET_COUNT`. -/
def TARGET_COUNT : Nat :=
  50

/-- The normalized question `q["question"].strip().lower()` used for
deduplication in `filter_golden`. -/
def normQ (q : ChatRecord) : String :=
  pyLower (pyStrip q.question)

/-- The sql exclusion rule of `filter_golden`:
`"error" in q["sql"].lower() and "select" not in q["sql"].lower()`. -/
def sqlExcluded (q : ChatRecord) : Bool :=
  pyContains (pyLower q.sql) "error" && !(pyContains (pyLower q.sql) "select")

/-- The order used by `queries.sort(key=lambda q: q["timestamp"], reverse=True)`:
`x` precedes `y` when `y`'s timestamp is at most `x`'s. -/
def tsGE (x y : ChatRecord) : Prop :=
  y.timestamp ≤ x.timestamp

instance : DecidableRel tsGE :=
  fun x y => Int.decLe y.timestamp x.timestamp

instance : IsTotal ChatRecord tsGE :=
  ⟨fun a b => Int.le_total b.timestamp a.timestamp⟩

instance : IsTrans ChatRecord tsGE :=
  ⟨fun _ _ _ h₁ h₂ => le_trans h₂ h₁⟩

/-- `queries.sort(key=lambda q: q["timestamp"], reverse=True)`: a stable sort
into descending-timestamp order, modelled by stable insertion sort. -/
def sortDesc (l : List ChatRecord) : List ChatRecord :=
  l.insertionSort tsGE

/-- The `for q in queries` loop of `filter_golden`: `seen` is the
`seen_questions` set, `golden` holds the accepted examples in reverse
(each `golden.append(q)` is a cons), and after an append the loop breaks
when `len(golden) >= target`. -/
def filterLoop (target : Nat) : List ChatRecord → List String → List ChatRecord → List ChatRecord
  | [], _seen, golden => golden.reverse
  | q :: rest, seen, golden =>
    if normQ q ∈ seen then
      filterLoop target rest seen golden
    else if pyLen (pyStrip q.question) < 15 then
      filterLoop target rest (normQ q :: seen) golden
    else if sqlExcluded q then
      filterLoop target rest (normQ q :: seen) golden
    else if target ≤ golden.length + 1 then
      (q :: golden).reverse
    else
      filterLoop target rest (normQ q :: seen) (q :: golden)

/-- `filter_golden(queries, target)`: sort by timestamp descending, then
deduplicate by normalized question and apply the quality filters, stopping
once `target` examples are accepted. -/
def filter_golden (queries : List ChatRecord) (target : Nat) : List ChatRecord :=
  filterLoop target (sortDesc queries) [] []

/-- `filter_golden` with the caller-visible state of its argument made
explicit: `queries.sort(...)` mutates the caller's list in place, so the call
is modelled as returning the new value of `queries` together with the returned
`golden` list. -/
def filter_golden_state (queries : List ChatRecord) (target : Nat) :
    List ChatRecord × List ChatRecord :=
  (sortDesc queries, filterLoop target (sortDesc queries) [] [])

/-- Reference version of the filter loop without the target bound: every
candidate that passes deduplication and the quality checks, in order. -/
def filterAll : List ChatRecord → List String → List ChatRecord
  | [], _seen => []
  | q :: rest, seen =>
    if normQ q ∈ seen then
      filterAll rest seen
    else if pyLen (pyStrip q.question) < 15 then
      filterAll rest (normQ q :: seen)
    else if sqlExcluded q then
      filterAll rest (normQ q :: seen)
    else
      q :: filterAll rest (normQ q :: seen)

/-- The candidates of `queries` that pass deduplication and quality checks,
in descending-timestamp order, with no target bound. -/
def passingCandidates (queries : List ChatRecord) : List ChatRecord :=
  filterAll (sortDesc queries) []

/-- One row of the `inputs` sequence of the upload payload. -/
structure InputRow where
  question : String
deriving DecidableEq

/-- One row of the `outputs` sequence of the upload payload. -/
structure OutputRow where
  sql : String
  insights : String
deriving DecidableEq

/-- One row of the `metadata` sequence of the upload payload. -/
structure MetadataRow where
  source : String
  user_email : String
  session_id : String
  timestamp : String
deriving DecidableEq

/-- `inputs = [{"question": g["question"]} for g in golden]`. -/
def buildInputs (golden : List ChatRecord) : List InputRow :=
  golden.map fun g => ⟨g.question⟩

/-- `outputs = [{"sql": g["sql"], "insights": g["insights"]} for g in golden]`. -/
def buildOutputs (golden : List ChatRecord) : List OutputRow :=
  golden.map fun g => ⟨g.sql, g.insights⟩

/-- The `metadata` comprehension of `main`: fixed source tag, user email,
session id, and the stringified timestamp. -/
def buildMetadata (golden : List ChatRecord) : List MetadataRow :=
  golden.map fun g => ⟨"dynamodb_chat_history", g.user_email, g.session_id, toString g.timestamp⟩

/-- One node of the GraphQL `datasets` listing used by the verification
fallback: a dataset name and its `exampleCount`. -/
structure GqlDataset where
  name : String
  exampleCount : Nat
deriving DecidableEq

/-- Behaviour of the external dataset-creation call: either
`client.datasets.create_dataset` returns normally, or it raises and the
GraphQL verification query returns the given list of datasets. -/
inductive UploadOutcome where
  | createOk : UploadOutcome
  | createRaises : List GqlDataset → UploadOutcome
deriving DecidableEq

/-- Observable outcome of a run of `main`: the process exit code, and the
example count named in the final success message (`none` on failure). -/
structure RunResult where
  exitCode : Nat
  reportedCount : Option Nat
deriving DecidableEq

/-- `match = [d for d in datasets if d["node"]["name"] == DATASET_NAME]`. -/
def verifyMatches (datasets : List GqlDataset) : List GqlDataset :=
  datasets.filter fun d => d.name == DATASET_NAME

/-- `main()`: scan, filter, then upload. `sys.exit(1)` when no queries are
found, when no example passes the filters, or when the creation call raises
and the verification query finds no dataset named `DATASET_NAME`; otherwise
the run succeeds with exit code 0, reporting the local count on a clean
return and the service-side `exampleCount` of the first matching dataset on
a verified success. -/
def main (pages : List (List Item)) (outcome : UploadOutcome) : RunResult :=
  if (scan_chat_history pages).length = 0 then
    ⟨1, none⟩
  else if (filter_golden (scan_chat_history pages) TARGET_COUNT).length = 0 then
    ⟨1, none⟩
  else
    match outcome with
    | .createOk => ⟨0, some (filter_golden (scan_chat_history pages) TARGET_COUNT).length⟩
    | .createRaises datasets =>
      match verifyMatches datasets with
      | [] => ⟨1, none⟩
      | m :: _ => ⟨0, some m.exampleCount⟩

/-! ### The Fetcher: `scan_chat_history` -/

theorem scanItems_eq (l : List Item) (queries : List ChatRecord) :
    scanItems l queries = queries ++ (l.filter itemQualifies).map itemToRecord := by
  induction l generalizing queries with
  | nil => simp [scanItems]
  | cons it rest ih =>
    cases h : itemQualifies it with
    | true =>
      rw [List.filter_cons_of_pos h]
      have h' : (truthy it.sql && truthy it.question && truthy it.insights) = true := h
      simp [scanItems, h', ih]
    | false =>
      rw [List.filter_cons_of_neg (by simp [h])]
      have h' : (truthy it.sql && truthy it.question && truthy it.insights) = false := h
      simp [scanItems, h', ih]

theorem scanPages_eq (pages : List (List Item)) (queries : List ChatRecord) :
    scanPages pages queries
      = queries ++ (pages.flatten.filter itemQualifies).map itemToRecord := by
  induction pages generalizing queries with
  | nil => simp [scanPages]
  | cons page rest ih =>
    simp [scanPages, ih, scanItems_eq, List.filter_append]

/-- C6: a scanned item is included in the Fetcher's result exactly when its
`sql`, `question` and `insights` fields are all present and non-empty
(truthy); the result is, in order, the record built from each such item. -/
theorem scan_includes_iff_truthy (pages : List (List Item)) :
    scan_chat_history pages
      = (pages.flatten.filter fun it =>
          truthy it.sql && truthy it.question && truthy it.insights).map itemToRecord := by
  rw [scan_chat_history]
  exact scanPages_eq pages []

/-! ### The Publisher payload -/

/-- C8: the upload payload consists of three sequences of length equal to the
number of accepted examples, index-aligned so that `inputs[i]` carries only
the question, `outputs[i]` the sql and insights texts, and `metadata[i]` the
fixed source tag, user email, session id, and stringified timestamp of
example `i`. -/
theorem payload_aligned (golden : List ChatRecord) :
    (buildInputs golden).length = golden.length
    ∧ (buildOutputs golden).length = golden.length
    ∧ (buildMetadata golden).length = golden.length
    ∧ (∀ i : Nat, (buildInputs golden)[i]?
        = (golden[i]?).map fun g => ⟨g.question⟩)
    ∧ (∀ i : Nat, (buildOutputs golden)[i]?
        = (golden[i]?).map fun g => ⟨g.sql, g.insights⟩)
    ∧ (∀ i : Nat, (buildMetadata golden)[i]?
        = (golden[i]?).map fun g =>
            ⟨"dynamodb_chat_history", g.user_email, g.session_id, toString g.timestamp⟩) := by
  refine ⟨?_, ?_, ?_, ?_, ?_, ?_⟩ <;>
    simp [buildInputs, buildOutputs, buildMetadata, List.getElem?_map]

/-! ### `main`: exit codes and the verification fallback -/

/-- C1: when the dataset-creation call raises and the GraphQL verification
listing contains a dataset named `DATASET_NAME`, the run exits with status 0
and reports the service-side `exampleCount` of the first such dataset. -/
theorem verified_success (pages : List (List Item)) (datasets : List GqlDataset)
    (m : GqlDataset)
    (h1 : scan_chat_history pages ≠ [])
    (h2 : filter_golden (scan_chat_history pages) TARGET_COUNT ≠ [])
    (hm : (verifyMatches datasets).head? = some m) :
    main pages (UploadOutcome.createRaises datasets) = ⟨0, some m.exampleCount⟩
    ∧ m.name = DATASET_NAME := by
  constructor
  · cases hv : verifyMatches datasets with
    | nil => rw [hv] at hm; simp at hm
    | cons x xs =>
      rw [hv] at hm
      simp only [List.head?_cons, Option.some.injEq] at hm
      subst hm
      simp [main, hv, List.length_eq_zero, h1, h2]
  · have hmem : m ∈ verifyMatches datasets := by
      cases hv : verifyMatches datasets with
      | nil => rw [hv] at hm; simp at hm
      | cons x xs =>
        rw [hv] at hm
        simp only [List.head?_cons, Option.some.injEq] at hm
        subst hm
        exact List.mem_cons_self _ _
    simp only [verifyMatches] at hmem
    have hp := List.of_mem_filter hmem
    simpa using hp

/-- Concrete chat-history item used by the closed-form witnesses. -/
def sampleItem : Item :=
  { sql := some ("SELECT count(1) FROM songs")
    question := some ("What is the total number of songs?")
    insights := some ("There are 42 songs in the library.")
    timestamp := some 5
    user_email := some ("user@example.com")
    session_id := some ("session-1") }

/-- Concrete GraphQL dataset node used by the closed-form witnesses. -/
def gql42 : GqlDataset :=
  ⟨"analytics-golden-queries", 42⟩

/-- C1 witness: a run whose creation call raises but whose verification
listing holds a matching dataset with `exampleCount = 42` exits 0 and
reports 42. -/
theorem verified_success_witness :
    main [[sampleItem]] (UploadOutcome.createRaises [gql42]) = ⟨0, some gql42.exampleCount⟩
    ∧ gql42.name = DATASET_NAME :=
  verified_success [[sampleItem]] [gql42] gql42 (by decide) (by decide) (by decide)

/-- C2: the run exits 0 or 1, and it exits 1 exactly when the scan yields no
qualifying record, no record passes the filter, or the creation call raises
and the verification listing holds no dataset named `DATASET_NAME`. -/
theorem exit_code_spec (pages : List (List Item)) (outcome : UploadOutcome) :
    ((main pages outcome).exitCode = 0 ∨ (main pages outcome).exitCode = 1)
    ∧ ((main pages outcome).exitCode = 1 ↔
        scan_chat_history pages = []
        ∨ filter_golden (scan_chat_history pages) TARGET_COUNT = []
        ∨ ∃ datasets, outcome = UploadOutcome.createRaises datasets
            ∧ verifyMatches datasets = []) := by
  by_cases h1 : (scan_chat_history pages).length = 0
  · simp [main, h1, List.length_eq_zero.mp h1]
  · have h1' : scan_chat_history pages ≠ [] := by
      simpa [List.length_eq_zero] using h1
    by_cases h2 : (filter_golden (scan_chat_history pages) TARGET_COUNT).length = 0
    · simp [main, h1, h2, List.length_eq_zero.mp h2, h1']
    · have h2' : filter_golden (scan_chat_history pages) TARGET_COUNT ≠ [] := by
        simpa [List.length_eq_zero] using h2
      cases outcome with
      | createOk =>
        have hmain : main pages UploadOutcome.createOk
            = ⟨0, some (filter_golden (scan_chat_history pages) TARGET_COUNT).length⟩ := by
          simp [main, h1, h2]
        rw [hmain]
        refine ⟨Or.inl rfl, ?_, ?_⟩
        · intro h; simp at h
        · rintro (h | h | ⟨ds, hds, _⟩)
          · exact absurd h h1'
          · exact absurd h h2'
          · exact UploadOutcome.noConfusion hds
      | createRaises datasets =>
        cases hv : verifyMatches datasets with
        | nil =>
          have hmain : main pages (UploadOutcome.createRaises datasets) = ⟨1, none⟩ := by
            simp [main, h1, h2, hv]
          rw [hmain]
          refine ⟨Or.inr rfl, ?_, ?_⟩
          · intro _
            exact Or.inr (Or.inr ⟨datasets, rfl, hv⟩)
          · intro _
            rfl
        | cons x xs =>
          have hmain : main pages (UploadOutcome.createRaises datasets)
              = ⟨0, some x.exampleCount⟩ := by
            simp [main, h1, h2, hv]
          rw [hmain]
          refine ⟨Or.inl rfl, ?_, ?_⟩
          · intro h; simp at h
          · rintro (h | h | ⟨ds, hds, hds2⟩)
            · exact absurd h h1'
            · exact absurd h h2'
            · injection hds with h
              subst h
              rw [hv] at hds2
              simp at hds2

/-! ### The Filter: `filter_golden` -/

theorem filterLoop_eq_take (target : Nat) (l : List ChatRecord) :
    ∀ (seen : List String) (golden : List ChatRecord),
      filterLoop target l seen golden
        = golden.reverse ++ (filterAll l seen).take (max (target - golden.length) 1) := by
  induction l with
  | nil => intro seen golden; simp [filterLoop, filterAll]
  | cons q rest ih =>
    intro seen golden
    by_cases hseen : normQ q ∈ seen
    · simp [filterLoop, filterAll, hseen, ih]
    · by_cases hshort : pyLen (pyStrip q.question) < 15
      · simp [filterLoop, filterAll, hseen, hshort, ih]
      · by_cases hexcl : sqlExcluded q = true
        · simp [filterLoop, filterAll, hseen, hshort, hexcl, ih]
        · by_cases htar : target ≤ golden.length + 1
          · have h1 : max (target - golden.length) 1 = 1 := by omega
            simp [filterLoop, filterAll, hseen, hshort, hexcl, htar, h1]
          · have h1 : max (target - golden.length) 1 = (target - (golden.length + 1)) + 1 := by
              omega
            have h2 : max (target - (golden.length + 1)) 1 = target - (golden.length + 1) := by
              omega
            simp [filterLoop, filterAll, hseen, hshort, hexcl, htar, ih, h1, h2,
              List.take_succ_cons]

theorem filter_golden_eq_take (queries : List ChatRecord) (target : Nat) :
    filter_golden queries target = (passingCandidates queries).take (max target 1) := by
  have h := filterLoop_eq_take target (sortDesc queries) [] []
  simpa [filter_golden, passingCandidates] using h

theorem filterAll_sublist : ∀ (l : List ChatRecord) (seen : List String),
    filterAll l seen <+ l := by
  intro l
  induction l with
  | nil => intro seen; simp [filterAll]
  | cons q rest ih =>
    intro seen
    simp only [filterAll]
    split
    · exact List.Sublist.cons q (ih seen)
    · split
      · exact List.Sublist.cons q (ih _)
      · split
        · exact List.Sublist.cons q (ih _)
        · exact List.Sublist.cons₂ q (ih _)

theorem mem_filterAll_quality :
    ∀ (l : List ChatRecord) (seen : List String) (g : ChatRecord), g ∈ filterAll l seen →
      15 ≤ pyLen (pyStrip g.question) ∧ sqlExcluded g = false := by
  intro l
  induction l with
  | nil => intro seen g hg; simp [filterAll] at hg
  | cons q rest ih =>
    intro seen g hg
    simp only [filterAll] at hg
    by_cases hseen : normQ q ∈ seen
    · rw [if_pos hseen] at hg
      exact ih seen g hg
    · rw [if_neg hseen] at hg
      by_cases hshort : pyLen (pyStrip q.question) < 15
      · rw [if_pos hshort] at hg
        exact ih _ g hg
      · rw [if_neg hshort] at hg
        by_cases hexcl : sqlExcluded q = true
        · rw [if_pos hexcl] at hg
          exact ih _ g hg
        · rw [if_neg hexcl] at hg
          rcases List.mem_cons.mp hg with rfl | hg'
          · exact ⟨le_of_not_lt hshort, by simpa using hexcl⟩
          · exact ih _ g hg'

theorem mem_filterAll_not_seen :
    ∀ (l : List ChatRecord) (seen : List String) (s : String), s ∈ seen →
      ∀ g ∈ filterAll l seen, normQ g ≠ s := by
  intro l
  induction l with
  | nil => intro seen s _ g hg; simp [filterAll] at hg
  | cons q rest ih =>
    intro seen s hs g hg
    simp only [filterAll] at hg
    by_cases hseen : normQ q ∈ seen
    · rw [if_pos hseen] at hg
      exact ih seen s hs g hg
    · rw [if_neg hseen] at hg
      by_cases hshort : pyLen (pyStrip q.question) < 15
      · rw [if_pos hshort] at hg
        exact ih _ s (List.mem_cons_of_mem _ hs) g hg
      · rw [if_neg hshort] at hg
        by_cases hexcl : sqlExcluded q = true
        · rw [if_pos hexcl] at hg
          exact ih _ s (List.mem_cons_of_mem _ hs) g hg
        · rw [if_neg hexcl] at hg
          rcases List.mem_cons.mp hg with rfl | hg'
          · intro hqs
            exact hseen (hqs ▸ hs)
          · exact ih _ s (List.mem_cons_of_mem _ hs) g hg'

theorem filterAll_pairwise_normQ : ∀ (l : List ChatRecord) (seen : List String),
    (filterAll l seen).Pairwise fun a b => normQ a ≠ normQ b := by
  intro l
  induction l with
  | nil => intro seen; simp [filterAll]
  | cons q rest ih =>
    intro seen
    simp only [filterAll]
    split
    · exact ih seen
    · split
      · exact ih _
      · split
        · exact ih _
        · refine List.Pairwise.cons ?_ (ih _)
          intro b hb
          exact (mem_filterAll_not_seen rest (normQ q :: seen) (normQ q)
            (List.mem_cons_self _ _) b hb).symm

/-- C3 counterexample: with target count 0 and a single passing candidate the
filter returns one example, because the loop checks `len(golden) >= target`
only after the first append; so the output length exceeds the target. -/
theorem target_zero_counterexample :
    (filter_golden [itemToRecord sampleItem] 0).length = 1
    ∧ ¬((filter_golden [itemToRecord sampleItem] 0).length ≤ 0) := by
  decide

/-- C3 (amended to positive targets): for every candidate list and every
target count `N ≥ 1`, the output has length at most `N`; it has length
exactly `N` whenever at least `N` candidates pass the deduplication and
quality checks; and when fewer pass, all passing candidates are returned. -/
theorem filter_golden_length_spec (queries : List ChatRecord) (target : Nat)
    (ht : 1 ≤ target) :
    (filter_golden queries target).length ≤ target
    ∧ (target ≤ (passingCandidates queries).length →
        (filter_golden queries target).length = target)
    ∧ ((passingCandidates queries).length < target →
        filter_golden queries target = passingCandidates queries) := by
  have heq := filter_golden_eq_take queries target
  have hmax : max target 1 = target := by omega
  rw [hmax] at heq
  refine ⟨?_, ?_, ?_⟩
  · rw [heq, List.length_take]
    omega
  · intro h
    rw [heq, List.length_take]
    omega
  · intro h
    rw [heq]
    exact List.take_of_length_le (le_of_lt h)

/-- C3 witness: a single passing candidate with the default target count. -/
theorem filter_golden_length_spec_witness :
    (filter_golden [itemToRecord sampleItem] 50).length ≤ 50
    ∧ (50 ≤ (passingCandidates [itemToRecord sampleItem]).length →
        (filter_golden [itemToRecord sampleItem] 50).length = 50)
    ∧ ((passingCandidates [itemToRecord sampleItem]).length < 50 →
        filter_golden [itemToRecord sampleItem] 50
          = passingCandidates [itemToRecord sampleItem]) :=
  filter_golden_length_spec [itemToRecord sampleItem] 50 (by decide)

/-- C4: the filter's output is ordered by non-increasing timestamp; it is an
ordered selection (sublist) of the stably sorted candidate list; and any two
records with equal timestamps that appear in a given pre-sort relative order
keep that relative order in the sorted list. -/
theorem filter_golden_ordering (queries : List ChatRecord) (target : Nat) :
    (filter_golden queries target).Pairwise (fun a b => b.timestamp ≤ a.timestamp)
    ∧ filter_golden queries target <+ sortDesc queries
    ∧ ∀ a b : ChatRecord, a.timestamp = b.timestamp →
        [a, b] <+ queries → [a, b] <+ sortDesc queries := by
  have hsub : filter_golden queries target <+ sortDesc queries := by
    rw [filter_golden_eq_take]
    exact (List.take_sublist _ _).trans (filterAll_sublist _ _)
  refine ⟨?_, hsub, ?_⟩
  · have hs : (sortDesc queries).Pairwise tsGE := List.sorted_insertionSort tsGE queries
    exact List.Pairwise.sublist hsub hs
  · intro a b hab h
    exact List.pair_sublist_insertionSort hab.ge h

/-- Record used by the tie-stability witnesses: same timestamp as
`tieLater`, appears first. -/
def tieEarlier : ChatRecord :=
  ⟨"Which artist has the most plays this month?", "SELECT artist FROM plays", "Artist A leads.", 7, "", ""⟩

/-- Record used by the tie-stability witnesses: same timestamp as
`tieEarlier`, appears second. -/
def tieLater : ChatRecord :=
  ⟨"How many sessions happened yesterday evening?", "SELECT count(1) FROM sessions", "There were 12.", 7, "", ""⟩

/-- C4 witness: two records with equal timestamps keep their pre-sort
relative order in the sorted candidate list. -/
theorem filter_golden_ordering_witness :
    [tieEarlier, tieLater] <+ sortDesc [itemToRecord sampleItem, tieEarlier, tieLater] :=
  (filter_golden_ordering [itemToRecord sampleItem, tieEarlier, tieLater] 50).2.2
    tieEarlier tieLater (by decide) (by decide)

/-- C5: no two examples in the filter's output share the same normalized
(trimmed, lower-cased) question text. -/
theorem filter_golden_unique_questions (queries : List ChatRecord) (target : Nat) :
    (filter_golden queries target).Pairwise fun a b => normQ a ≠ normQ b := by
  rw [filter_golden_eq_take]
  exact List.Pairwise.sublist (List.take_sublist _ _) (filterAll_pairwise_normQ _ _)

/-- C7: every example in the filter's output has a trimmed question of at
least 15 characters, and its sql text does not match the exclusion rule
(contains "error" case-insensitively while not containing "select"). -/
theorem filter_golden_quality (queries : List ChatRecord) (target : Nat) :
    ∀ g ∈ filter_golden queries target,
      15 ≤ pyLen (pyStrip g.question) ∧ sqlExcluded g = false := by
  intro g hg
  rw [filter_golden_eq_take] at hg
  exact mem_filterAll_quality _ _ g ((List.take_sublist _ _).subset hg)

/-- C7 witness: the sample record is in the output and passes both checks. -/
theorem filter_golden_quality_witness :
    15 ≤ pyLen (pyStrip (itemToRecord sampleItem).question)
    ∧ sqlExcluded (itemToRecord sampleItem) = false :=
  filter_golden_quality [itemToRecord sampleItem] 50 (itemToRecord sampleItem) (by decide)

theorem head_filter_decomp {α : Type} {p : α → Bool} {l : List α} {r : α}
    (h : (l.filter p).head? = some r) :
    ∃ l₁ l₂, l = l₁ ++ r :: l₂ ∧ (∀ x ∈ l₁, p x = false) ∧ p r = true := by
  induction l with
  | nil => simp [List.filter] at h
  | cons a l ih =>
    cases hp : p a with
    | true =>
      rw [List.filter_cons_of_pos hp] at h
      simp only [List.head?_cons, Option.some.injEq] at h
      subst h
      exact ⟨[], l, rfl, by simp, hp⟩
    | false =>
      rw [List.filter_cons_of_neg (by simp [hp])] at h
      obtain ⟨l₁, l₂, rfl, h1, h2⟩ := ih h
      refine ⟨a :: l₁, l₂, rfl, ?_, h2⟩
      intro x hx
      rcases List.mem_cons.mp hx with rfl | hx'
      · exact hp
      · exact h1 x hx'

theorem filterAll_append_blocked :
    ∀ (l₁ : List ChatRecord) (r : ChatRecord) (l₂ : List ChatRecord) (seen : List String)
      {s : String},
      (∀ x ∈ l₁, normQ x ≠ s) → normQ r = s →
      (pyLen (pyStrip r.question) < 15 ∨ sqlExcluded r = true) →
      ∀ g ∈ filterAll (l₁ ++ r :: l₂) seen, normQ g ≠ s := by
  intro l₁
  induction l₁ with
  | nil =>
    intro r l₂ seen s _ hrs hfail g hg
    simp only [List.nil_append, filterAll] at hg
    by_cases hseen : normQ r ∈ seen
    · rw [if_pos hseen] at hg
      exact mem_filterAll_not_seen l₂ seen s (hrs ▸ hseen) g hg
    · rw [if_neg hseen] at hg
      have hmem : s ∈ normQ r :: seen := by
        rw [← hrs]
        exact List.mem_cons_self _ _
      rcases hfail with hshort | hexcl
      · rw [if_pos hshort] at hg
        exact mem_filterAll_not_seen l₂ _ s hmem g hg
      · by_cases hshort : pyLen (pyStrip r.question) < 15
        · rw [if_pos hshort] at hg
          exact mem_filterAll_not_seen l₂ _ s hmem g hg
        · rw [if_neg hshort, if_pos hexcl] at hg
          exact mem_filterAll_not_seen l₂ _ s hmem g hg
  | cons q l₁ ih =>
    intro r l₂ seen s hl₁ hrs hfail g hg
    have hq : normQ q ≠ s := hl₁ q (List.mem_cons_self _ _)
    have hl₁' : ∀ x ∈ l₁, normQ x ≠ s := fun x hx => hl₁ x (List.mem_cons_of_mem _ hx)
    simp only [List.cons_append, filterAll] at hg
    by_cases hseen : normQ q ∈ seen
    · rw [if_pos hseen] at hg
      exact ih r l₂ seen hl₁' hrs hfail g hg
    · rw [if_neg hseen] at hg
      by_cases hshort : pyLen (pyStrip q.question) < 15
      · rw [if_pos hshort] at hg
        exact ih r l₂ _ hl₁' hrs hfail g hg
      · rw [if_neg hshort] at hg
        by_cases hexcl : sqlExcluded q = true
        · rw [if_pos hexcl] at hg
          exact ih r l₂ _ hl₁' hrs hfail g hg
        · rw [if_neg hexcl] at hg
          rcases List.mem_cons.mp hg with rfl | hg'
          · exact hq
          · exact ih r l₂ _ hl₁' hrs hfail g hg'

/-- C9: the filter records a normalized question as seen before the quality
checks: if the most recent candidate bearing normalized question `s` (the
head of the sorted list restricted to bearers of `s`) fails a quality check,
then no output example bears `s` — every older record with the same
normalized question is rejected as a duplicate. -/
theorem seen_added_before_quality (queries : List ChatRecord) (target : Nat)
    (s : String) (r : ChatRecord)
    (hfirst : ((sortDesc queries).filter fun q => normQ q == s).head? = some r)
    (hfail : pyLen (pyStrip r.question) < 15 ∨ sqlExcluded r = true) :
    ∀ g ∈ filter_golden queries target, normQ g ≠ s := by
  obtain ⟨l₁, l₂, heq, hl₁, hr⟩ := head_filter_decomp hfirst
  intro g hg
  rw [filter_golden_eq_take] at hg
  have hg' := (List.take_sublist _ _).subset hg
  rw [passingCandidates, heq] at hg'
  refine filterAll_append_blocked l₁ r l₂ [] ?_ ?_ hfail g hg'
  · intro x hx
    have hx' := hl₁ x hx
    simpa using hx'
  · simpa using hr

/-- A recent candidate that bears the same normalized question as
`itemToRecord sampleItem` but fails the sql quality check. -/
def failingRecent : ChatRecord :=
  ⟨"  What Is The TOTAL Number Of Songs? ", "ERROR: connection timed out", "no insight", 9, "", ""⟩

/-- C9 witness: the older record is excluded from the output because the most
recent bearer of its normalized question fails the sql quality check. -/
theorem seen_added_before_quality_witness :
    itemToRecord sampleItem ∉ filter_golden [itemToRecord sampleItem, failingRecent] 50 :=
  fun hmem =>
    seen_added_before_quality [itemToRecord sampleItem, failingRecent] 50
      (normQ failingRecent) failingRecent (by decide) (by decide)
      (itemToRecord sampleItem) hmem (by decide)

/-- C10: `filter_golden` sorts its input list in place — after the call the
caller's list is a permutation of the original in descending-timestamp order
(record fields unchanged, being the same records), and the returned output is
a selection of elements of that post-call list. -/
theorem filter_golden_state_spec (queries : List ChatRecord) (target : Nat) :
    (filter_golden_state queries target).1.Perm queries
    ∧ (filter_golden_state queries target).1.Pairwise (fun a b => b.timestamp ≤ a.timestamp)
    ∧ (filter_golden_state queries target).2 <+ (filter_golden_state queries target).1
    ∧ (filter_golden_state queries target).2 = filter_golden queries target := by
  refine ⟨?_, ?_, ?_, rfl⟩
  · exact List.perm_insertionSort tsGE queries
  · exact List.sorted_insertionSort tsGE queries
  · show filter_golden queries target <+ sortDesc queries
    rw [filter_golden_eq_take]
    exact (List.take_sublist _ _).trans (filterAll_sublist _ _)

end GoldenDataset
